import Mathlib

/-!
# AudioScribe transcription pipeline — verification development

Shallow embedding of the transcription pipeline of the AudioScribe
repository (files `audioscribe_windows.py` and `audioscribe_mac.py`).
External ML backends (WhisperX model load, audio decode, speech-to-text,
forced alignment, diarization) are opaque engines at the boundary; they are
modelled as an `Oracle` record of possibly-failing calls.  Side effects that
matter to the specification (backend model-load calls, cache-entry
destruction, accelerator-memory release, directory creation, file writes)
are recorded as an explicit event trace.
-/

/-- A transcript segment as produced by the Transcribe stage and annotated by
the Align and Diarize stages: start/end times in seconds, text, and an
optional speaker label (`none` models a missing `"speaker"` key). -/
structure Segment where
  start : ℚ
  stop : ℚ
  text : String
  speaker : Option String
deriving DecidableEq

/-- Result of the speech-to-text backend call: the segment list and the
optional detected-language code (`none` models a missing `"language"` key). -/
structure TResult where
  segments : List Segment
  language : Option String
deriving DecidableEq

/-- Composite model-cache key: `(model_size, device, compute_type, language)`
as used by `_get_model` in `audioscribe_windows.py`. -/
structure MKey where
  modelSize : String
  device : String
  computeType : String
  langCode : Option String
deriving DecidableEq

/-- The process-wide model cache `_model_cache = {"key": ..., "model": ...}`.
Model handles are identified by natural numbers. -/
structure Cache where
  key : Option MKey
  model : Option Nat
deriving DecidableEq

/-- Observable side effects of a pipeline run. -/
inductive Event where
  /-- A backend model-load call (`whisperx.load_model`) was issued. -/
  | loadModel (k : MKey)
  /-- The cached model handle was destroyed (`del _model_cache["model"]`). -/
  | destroyModel
  /-- Accelerator memory was released (`torch.cuda.empty_cache()`). -/
  | cudaEmpty
  /-- The output directory was created (`DOWNLOADS.mkdir(exist_ok=True)`). -/
  | mkdir
  /-- A UTF-8 text file with the given name and content was written. -/
  | writeFile (name : String) (content : String)
deriving DecidableEq

/-- Host accelerator availability as probed by
`torch.cuda.is_available()` / `torch.backends.mps.is_available()`. -/
structure HostCaps where
  cuda : Bool
  mps : Bool
deriving DecidableEq

/-- An input audio path, reduced to the parts the pipeline reads:
`pathlib` stem and suffix (extension including the leading dot). -/
structure APath where
  stem : String
  suffix : String
deriving DecidableEq

/-- The opaque external backends.  Each call either succeeds or raises
(modelled as `Except` with the exception message). `loadModel` returns a
fresh model handle; `align` and `diarize` are functions of the segment list
they are given. -/
structure Oracle where
  loadModel : Except String Nat
  loadAud : Except String Unit
  transcribeRun : Except String TResult
  align : List Segment → Except String (List Segment)
  diarize : List Segment → Except String (List Segment)

/-- Python `str.lower()` (ASCII-faithful). -/
def pyLower (s : String) : String := String.mk (s.data.map Char.toLower)

/-- Drop leading whitespace characters from a character list. -/
def dropLeadWs : List Char → List Char
  | [] => []
  | c :: rest => if c.isWhitespace then dropLeadWs rest else c :: rest

/-- Python `str.strip()`: remove leading and trailing whitespace. -/
def pyStrip (s : String) : String :=
  String.mk (dropLeadWs (dropLeadWs s.data.reverse).reverse)

/-- Substring test, modelling Python's `sub in s`. -/
def strContains (s sub : String) : Bool :=
  s.data.tails.any (fun t => sub.data.isPrefixOf t)

/-- The guarded Align stage (`try: ... whisperx.align ... except: pass`
shape): on success the aligner's segments replace the input, on an
exception the input segments are kept unchanged. -/
def alignStage (o : Oracle) (segs : List Segment) : List Segment :=
  match o.align segs with
  | .error _ => segs
  | .ok s => s

/-- The guarded Diarize stage (`try: ... assign_word_speakers ... except:
pass` shape): on success the speaker-annotated segments replace the input,
on an exception the input segments are kept unchanged. -/
def diarizeStage (o : Oracle) (segs : List Segment) : List Segment :=
  match o.diarize segs with
  | .error _ => segs
  | .ok s => s

/-- Python `%` on rationals with positive modulus:
`a % b = a - b * (a // b)` where `//` is floor division. -/
def pyMod (a b : ℚ) : ℚ := a - b * ⌊a / b⌋

/-- Python `f"{n:02d}"` for the integer field values of `format_timestamp`. -/
def pad2 (n : ℤ) : String :=
  if 0 ≤ n ∧ n < 10 then "0" ++ toString n else toString n

/-- Function `format_timestamp` from `audioscribe_mac.py`:
`hours = int(seconds // 3600)`, `minutes = int((seconds % 3600) // 60)`,
`secs = int(seconds % 60)`, rendered `HH:MM:SS` when `hours > 0` and
`MM:SS` otherwise.  (`int` of the nonnegative values produced by `//` and
`%` coincides with the floor.) -/
def format_timestamp (seconds : ℚ) : String :=
  let hours : ℤ := ⌊seconds / 3600⌋
  let minutes : ℤ := ⌊pyMod seconds 3600 / 60⌋
  let secs : ℤ := ⌊pyMod seconds 60⌋
  if 0 < hours then
    pad2 hours ++ ":" ++ pad2 minutes ++ ":" ++ pad2 secs
  else
    pad2 minutes ++ ":" ++ pad2 secs

/-- Zero-padded two-digit rendering of a natural number. -/
def pad2n (n : ℕ) : String := if n < 10 then "0" ++ toString n else toString n

/-- The timestamp rendering as the specification words it: truncate to
integer seconds `n`, render `MM:SS` below one hour and `HH:MM:SS` from one
hour on, all fields zero-padded to two digits. -/
def specTimestamp (n : ℕ) : String :=
  if n < 3600 then pad2n (n / 60) ++ ":" ++ pad2n (n % 60)
  else pad2n (n / 3600) ++ ":" ++ pad2n (n % 3600 / 60) ++ ":" ++ pad2n (n % 60)

lemma toString_intCast (k : ℕ) : toString ((k : ℤ)) = toString k := rfl

lemma pad2_natCast (k : ℕ) : pad2 (k : ℤ) = pad2n k := by
  unfold pad2 pad2n
  have h0 : (0:ℤ) ≤ (k:ℤ) := Int.natCast_nonneg k
  rcases Nat.lt_or_ge k 10 with h | h
  · simp [h0, (by exact_mod_cast h : (k:ℤ) < 10), h, toString_intCast]
  · simp [Nat.not_lt.mpr h, (by omega : ¬ ((k:ℤ) < 10)), toString_intCast]

lemma floor_div_nat_q (q : ℚ) (hq : 0 ≤ q) (m : ℕ) :
    ⌊q / (m:ℚ)⌋ = ((⌊q⌋₊ / m : ℕ) : ℤ) := by
  have h1 : (0:ℚ) ≤ q / (m:ℚ) := by positivity
  rw [← Int.natCast_floor_eq_floor h1, Nat.floor_div_nat]

lemma floor_pyMod_nat (q : ℚ) (hq : 0 ≤ q) (m : ℕ) :
    ⌊pyMod q (m:ℚ)⌋ = ((⌊q⌋₊ % m : ℕ) : ℤ) := by
  unfold pyMod
  rw [floor_div_nat_q q hq m]
  have hcast : (m:ℚ) * (((⌊q⌋₊ / m : ℕ) : ℤ) : ℚ) = ((m * (⌊q⌋₊ / m) : ℕ) : ℚ) := by
    generalize ⌊q⌋₊ / m = k
    push_cast; ring
  rw [hcast, Int.floor_sub_nat, ← Int.natCast_floor_eq_floor hq]
  have key := Nat.mod_add_div ⌊q⌋₊ m
  omega

lemma pyMod_nonneg (q : ℚ) (m : ℕ) (hm : 0 < m) : 0 ≤ pyMod q (m:ℚ) := by
  unfold pyMod
  have hm' : (0:ℚ) < (m:ℚ) := by exact_mod_cast hm
  have h1 : ((⌊q / (m:ℚ)⌋ : ℚ)) ≤ q / (m:ℚ) := Int.floor_le _
  have h2 : (m:ℚ) * ((⌊q / (m:ℚ)⌋ : ℤ) : ℚ) ≤ (m:ℚ) * (q / (m:ℚ)) :=
    mul_le_mul_of_nonneg_left h1 hm'.le
  have h3 : (m:ℚ) * (q / (m:ℚ)) = q := by field_simp
  linarith

/-- Lemma: `format_timestamp` computes exactly the specification's rendering of
the truncated second count. -/
lemma format_timestamp_spec (s : ℚ) (h : 0 ≤ s) :
    format_timestamp s = specTimestamp ⌊s⌋₊ := by
  unfold format_timestamp specTimestamp
  set n := ⌊s⌋₊ with hn
  have h3600 : ⌊s / (3600:ℚ)⌋ = ((n / 3600 : ℕ) : ℤ) := by
    simpa using floor_div_nat_q s h 3600
  have hmod3600 : ⌊pyMod s (3600:ℚ)⌋ = ((n % 3600 : ℕ) : ℤ) := by
    simpa using floor_pyMod_nat s h 3600
  have hmod60 : ⌊pyMod s (60:ℚ)⌋ = ((n % 60 : ℕ) : ℤ) := by
    simpa using floor_pyMod_nat s h 60
  have hx : 0 ≤ pyMod s (3600:ℚ) := by
    have := pyMod_nonneg s 3600 (by norm_num); simpa using this
  have hmin : ⌊pyMod s (3600:ℚ) / (60:ℚ)⌋ = ((n % 3600 / 60 : ℕ) : ℤ) := by
    have h1 := floor_div_nat_q (pyMod s (3600:ℚ)) hx 60
    have h2 : ⌊pyMod s (3600:ℚ)⌋₊ = n % 3600 := by
      rw [← Int.floor_toNat]; omega
    rw [h2] at h1
    simpa using h1
  rw [show ((3600:ℚ)) = ((3600:ℕ):ℚ) by norm_num] at h3600 ⊢
  rw [show ((60:ℚ)) = ((60:ℕ):ℚ) by norm_num] at hmin hmod60 ⊢
  rw [show ((3600:ℚ)) = ((3600:ℕ):ℚ) by norm_num] at hmod3600 hmin
  rw [h3600, hmin, hmod60]
  by_cases hc : n < 3600
  · have hz : n / 3600 = 0 := Nat.div_eq_of_lt hc
    simp only [hz, Nat.cast_zero, lt_self_iff_false, if_false, hc, if_true,
      Nat.mod_eq_of_lt hc]
    rw [pad2_natCast, pad2_natCast]
  · have hz : 0 < n / 3600 := Nat.div_pos (Nat.not_lt.mp hc) (by norm_num)
    have hz' : (0:ℤ) < ((n / 3600 : ℕ) : ℤ) := by exact_mod_cast hz
    simp only [hz', if_true, hc, if_false]
    rw [pad2_natCast, pad2_natCast, pad2_natCast]

lemma format_timestamp_natCast (k : ℕ) :
    format_timestamp (k:ℚ) = specTimestamp k := by
  rw [format_timestamp_spec _ (by positivity), Nat.floor_natCast]

namespace Win

/-- Mapping `LANG_CODES.get(language)` from `audioscribe_windows.py`. -/
def langCode : String → Option String
  | "English" => some "en" | "Spanish" => some "es" | "French" => some "fr"
  | "German" => some "de" | "Italian" => some "it" | "Portuguese" => some "pt"
  | "Dutch" => some "nl" | "Russian" => some "ru" | "Chinese" => some "zh"
  | "Japanese" => some "ja" | "Korean" => some "ko" | "Arabic" => some "ar"
  | "Hindi" => some "hi" | "Turkish" => some "tr" | "Polish" => some "pl"
  | "Swedish" => some "sv" | "Danish" => some "da" | "Norwegian" => some "no"
  | "Finnish" => some "fi" | "Greek" => some "el" | "Czech" => some "cs"
  | _ => none

/-- Function `get_device` from `audioscribe_windows.py`: cuda if available, else cpu
(the unified-memory accelerator is never probed). -/
def get_device (h : HostCaps) : String :=
  if h.cuda then "cuda" else "cpu"

/-- Function `get_compute_type` from `audioscribe_windows.py`. -/
def get_compute_type (device : String) : String :=
  if device = "cuda" then "float16" else "int8"

/-- Function `_get_model` from `audioscribe_windows.py`.  On a key match with a live
cached model, returns the cached handle untouched.  Otherwise frees the
previous model if present (destroy, plus `torch.cuda.empty_cache()` when the
requested device is cuda), then issues the backend load call; on load
success the new entry is stored, on load failure the error propagates with
the cache left as the reset state. -/
def getModel (c : Cache) (k : MKey) (load : Except String Nat) :
    Except String Nat × Cache × List Event :=
  match c.model with
  | some m =>
    if c.key = some k then
      (.ok m, c, [])
    else
      let ev := Event.destroyModel ::
        (if k.device = "cuda" then [Event.cudaEmpty] else [])
      match load with
      | .error e => (.error e, ⟨none, none⟩, ev ++ [Event.loadModel k])
      | .ok h => (.ok h, ⟨some k, some h⟩, ev ++ [Event.loadModel k])
  | none =>
    match load with
    | .error e => (.error e, c, [Event.loadModel k])
    | .ok h => (.ok h, ⟨some k, some h⟩, [Event.loadModel k])

end Win

namespace Mac

/-- Mapping `LANGUAGES.get(language)` from `audioscribe_mac.py` (`Auto-detect`
maps to `None`, as does a missing key). -/
def langCode : String → Option String
  | "English" => some "en" | "Spanish" => some "es" | "French" => some "fr"
  | "German" => some "de" | "Italian" => some "it" | "Portuguese" => some "pt"
  | "Dutch" => some "nl" | "Polish" => some "pl" | "Russian" => some "ru"
  | "Japanese" => some "ja" | "Chinese" => some "zh" | "Korean" => some "ko"
  | "Arabic" => some "ar" | "Turkish" => some "tr" | "Hindi" => some "hi"
  | "Vietnamese" => some "vi" | "Thai" => some "th" | "Indonesian" => some "id"
  | "Ukrainian" => some "uk" | "Czech" => some "cs"
  | _ => none

/-- Constant `AUDIO_FORMATS` from `audioscribe_mac.py`. -/
def AUDIO_FORMATS : List String :=
  [".mp3", ".wav", ".m4a", ".aac", ".flac", ".ogg", ".wma"]

/-- Function `get_device` from `audioscribe_mac.py`: the unified-memory accelerator
is probed first, then cuda, then cpu. -/
def get_device (h : HostCaps) : String :=
  if h.mps then "mps" else if h.cuda then "cuda" else "cpu"

/-- Function `get_compute_type` from `audioscribe_mac.py`. -/
def get_compute_type (device : String) : String :=
  if device = "cuda" then "float16" else "float32"

end Mac

namespace Win

/-- Inputs of the Windows `transcribe` request: the uploaded path (`none`
models no upload), the UI selections, the persisted token file content
(already stripped, as `load_token` strips it), host environment facts, and
the `strftime("%Y%m%d_%H%M%S")` value of this invocation. -/
structure Input where
  aud : Option APath
  language : String
  modelSize : String
  enableDiarization : Bool
  hfToken : String
  savedToken : String
  ffmpeg : Bool
  caps : HostCaps
  timestamp : String

/-- Result of one Windows `transcribe` invocation: the returned text, the
model cache left behind, and the event trace. -/
structure RunResult where
  output : String
  cache : Cache
  events : List Event
deriving DecidableEq

/-- The effective Hugging Face token:
`(hf_token or "").strip() or load_token()`. -/
def token (i : Input) : String :=
  if (pyStrip i.hfToken) = "" then i.savedToken else (pyStrip i.hfToken)

/-- The transcript-building loop of the Windows `transcribe` (lines
261–271): skip segments whose stripped text is empty; when diarization is
enabled and the segment has a truthy speaker differing from the running
current speaker, emit a `"\n[SPEAKER]"` marker line and update the current
speaker; always emit the stripped text line. -/
def buildLines (enable : Bool) : Option String → List Segment → List String
  | _, [] => []
  | cur, s :: rest =>
    let text := pyStrip s.text
    if text = "" then
      buildLines enable cur rest
    else
      match s.speaker with
      | some spk =>
        if enable ∧ spk ≠ "" ∧ some spk ≠ cur then
          ("\n[" ++ spk ++ "]") :: text :: buildLines enable (some spk) rest
        else
          text :: buildLines enable cur rest
      | none => text :: buildLines enable cur rest

/-- The FFmpeg-missing message returned before the pipeline starts. -/
def ffmpegMsg : String :=
  "FFmpeg is not installed.\n\n" ++
  "FFmpeg is required to decode audio files. Install it:\n" ++
  "  Windows:  winget install FFmpeg\n" ++
  "  macOS:    brew install ffmpeg\n\n" ++
  "Then restart AudioScribe."

/-- The exception handler of the Windows `transcribe`: out-of-memory gets a
dedicated message, everything else gets `Transcription failed:` plus hints,
with an FFmpeg install hint prepended when the message suggests so. -/
def failureMsg (msg : String) : String :=
  if strContains (pyLower msg) "out of memory" then
    "Out of GPU memory.\n\n" ++
    "Try a smaller model:\n" ++
    "  tiny  — fastest, works on any hardware\n" ++
    "  base  — good balance of speed and accuracy\n" ++
    "  small — better accuracy, needs more memory\n\n" ++
    "Or close other GPU-intensive applications."
  else
    let hints := ["Try a smaller model (e.g. 'tiny')",
                  "Ensure the audio file is not corrupted"]
    let hints :=
      if strContains (pyLower msg) "ffmpeg" ∨ strContains msg "FileNotFoundError"
      then "Install FFmpeg:  winget install FFmpeg" :: hints
      else hints
    "Transcription failed: " ++ msg ++ "\n\nSuggestions:\n" ++
      String.intercalate "\n" (hints.map (fun h => "  - " ++ h))

/-- The `except` branch of the Windows `transcribe`: release accelerator
memory on cuda, then return the classified message. -/
def fail (device : String) (c : Cache) (evs : List Event) (msg : String) :
    RunResult :=
  { output := failureMsg msg,
    cache := c,
    events := evs ++ (if device = "cuda" then [Event.cudaEmpty] else []) }

/-- The tail of the Windows `transcribe` after a successful Transcribe
stage: best-effort Align, conditional best-effort Diarize, transcript
build, the no-speech early return, and the save to Downloads (directory
created, file written, cuda cache emptied on cuda). -/
def assembleAndSave (i : Input) (o : Oracle) (p : APath) (device : String)
    (c₁ : Cache) (ev₁ : List Event) (tr : TResult) : RunResult :=
  let segs₁ := alignStage o tr.segments
  let segs₂ :=
    if i.enableDiarization ∧ token i ≠ "" then diarizeStage o segs₁ else segs₁
  let transcript :=
    pyStrip (String.intercalate "\n" (buildLines i.enableDiarization none segs₂))
  if transcript = "" then
    { output := "No speech detected in the audio file.",
      cache := c₁, events := ev₁ }
  else
    { output := transcript,
      cache := c₁,
      events := ev₁ ++ [Event.mkdir,
        Event.writeFile (p.stem ++ "_" ++ i.timestamp ++ ".txt") transcript]
        ++ (if device = "cuda" then [Event.cudaEmpty] else []) }

/-- The Windows `transcribe` function (`audioscribe_windows.py`, lines
175–313), with prints and progress callbacks elided and each backend call
drawn from the oracle. -/
def transcribe (c : Cache) (i : Input) (o : Oracle) : RunResult :=
  match i.aud with
  | none => { output := "Please upload an audio file.", cache := c, events := [] }
  | some p =>
    if ¬ i.ffmpeg then
      { output := ffmpegMsg, cache := c, events := [] }
    else
      let device := get_device i.caps
      let computeType := get_compute_type device
      let lc := if i.language = "Auto-detect" then none else langCode i.language
      match getModel c ⟨i.modelSize, device, computeType, lc⟩ o.loadModel with
      | (mres, c₁, ev₁) =>
        match mres with
        | .error e => fail device c₁ ev₁ e
        | .ok _m =>
          match o.loadAud with
          | .error e => fail device c₁ ev₁ e
          | .ok _ =>
            match o.transcribeRun with
            | .error e => fail device c₁ ev₁ e
            | .ok tr => assembleAndSave i o p device c₁ ev₁ tr

end Win

namespace Mac

/-- Inputs of the macOS `transcribe` request.  `tsName` is the
`strftime("%Y%m%d_%H%M%S")` value used in the output filename, `tsHeader`
the `strftime("%Y-%m-%d %H:%M:%S")` value written in the header, and
`downloads` the `~/Downloads` path string. -/
structure Input where
  aud : Option APath
  language : String
  modelSize : String
  enableDiarization : Bool
  hfToken : String
  caps : HostCaps
  tsName : String
  tsHeader : String
  downloads : String

/-- Result of one macOS `transcribe` invocation: the returned
`(transcript, save-status)` pair and the event trace. -/
structure RunResult where
  output : String × String
  events : List Event
deriving DecidableEq

/-- One display line of the macOS transcript format loop (lines 188–200):
`"[start - end] [speaker]: text"` when the segment carries a truthy speaker
label, otherwise `"[start - end]: text"`. -/
def renderLine (s : Segment) : String :=
  let st := format_timestamp s.start
  let en := format_timestamp s.stop
  let text := pyStrip s.text
  match s.speaker with
  | some spk =>
    if spk ≠ "" then "[" ++ st ++ " - " ++ en ++ "] [" ++ spk ++ "]: " ++ text
    else "[" ++ st ++ " - " ++ en ++ "]: " ++ text
  | none => "[" ++ st ++ " - " ++ en ++ "]: " ++ text

/-- The 60-character `=` separator line. -/
def sep60 : String := String.mk (List.replicate 60 '=')

/-- The content written to the output file (lines 211–221): metadata
header, separator, rendered transcript, separator, full-text section. -/
def fileContent (name date model lang transcript fullText : String) : String :=
  "AudioScribe Transcript\n" ++
  "File: " ++ name ++ "\n" ++
  "Date: " ++ date ++ "\n" ++
  "Model: " ++ model ++ "\n" ++
  "Language: " ++ lang ++ "\n" ++
  sep60 ++ "\n\n" ++
  transcript ++
  "\n\n" ++ sep60 ++ "\n" ++
  "Full Text:\n\n" ++
  fullText

/-- The invalid-input message for an unsupported extension. -/
def unsupportedMsg : String :=
  "Unsupported file format. Supported formats: " ++
    String.intercalate ", " AUDIO_FORMATS

/-- The tail of the macOS `transcribe` after a successful Align stage:
conditional best-effort Diarize, both renderings, and the file write (no
directory creation). -/
def assembleAndSave (i : Input) (o : Oracle) (p : APath) (key : MKey)
    (detected : String) (aligned : List Segment) : RunResult :=
  let segs :=
    if i.enableDiarization ∧ i.hfToken ≠ "" then diarizeStage o aligned
    else aligned
  let transcript := String.intercalate "\n" (segs.map renderLine)
  let fullText := String.intercalate " " (segs.map (fun s => pyStrip s.text))
  let fname := p.stem ++ "_transcript_" ++ i.tsName ++ ".txt"
  { output := (transcript, "Saved to: " ++ i.downloads ++ "/" ++ fname),
    events := [Event.loadModel key,
      Event.writeFile fname
        (fileContent (p.stem ++ p.suffix) i.tsHeader i.modelSize
          detected transcript fullText)] }

/-- The macOS `transcribe` function (`audioscribe_mac.py`, lines 96–232),
with prints and progress callbacks elided and each backend call drawn from
the oracle.  Unlike the Windows variant, the alignment calls are not
guarded by their own `try`: an alignment exception falls through to the
outer handler.  The file write performs no directory creation. -/
def transcribe (i : Input) (o : Oracle) : RunResult :=
  match i.aud with
  | none => { output := ("Please upload an audio file.", ""), events := [] }
  | some p =>
    if pyLower p.suffix ∉ AUDIO_FORMATS then
      { output := (unsupportedMsg, ""), events := [] }
    else
      let device := get_device i.caps
      let lc := langCode i.language
      let key : MKey := ⟨i.modelSize, device, get_compute_type device, lc⟩
      match o.loadModel with
      | .error e =>
        { output := ("Error during transcription: " ++ e, ""),
          events := [Event.loadModel key] }
      | .ok _m =>
        match o.loadAud with
        | .error e =>
          { output := ("Error during transcription: " ++ e, ""),
            events := [Event.loadModel key] }
        | .ok _ =>
          match o.transcribeRun with
          | .error e =>
            { output := ("Error during transcription: " ++ e, ""),
              events := [Event.loadModel key] }
          | .ok tr =>
            let detected := tr.language.getD (lc.getD "en")
            match o.align tr.segments with
            | .error e =>
              { output := ("Error during transcription: " ++ e, ""),
                events := [Event.loadModel key] }
            | .ok aligned => assembleAndSave i o p key detected aligned

end Mac

/-- Non-decreasing ordering of a segment list by start time. -/
def SortedSegs (l : List Segment) : Prop :=
  l.Pairwise (fun a b => a.start ≤ b.start)

instance (l : List Segment) : Decidable (SortedSegs l) :=
  List.instDecidablePairwise l

namespace Win

/-- The segment list the Windows run holds after the (best-effort) Align
stage: the aligner's output on success, the Transcribe-stage segments on
alignment failure. -/
def alignedSegs (o : Oracle) : List Segment :=
  match o.transcribeRun with
  | .error _ => []
  | .ok tr => alignStage o tr.segments

/-- The segment list the Windows run renders: after the (best-effort)
Diarize stage when it is attempted (`useDiar` is the run's
`enable_diarization and token` condition), otherwise the post-Align list. -/
def finalSegs (o : Oracle) (useDiar : Prop) [Decidable useDiar] : List Segment :=
  if useDiar then diarizeStage o (alignedSegs o) else alignedSegs o

/-- Unfolding equation of `buildLines` on a non-empty list. -/
lemma buildLines_cons (e : Bool) (cur : Option String) (s : Segment)
    (rest : List Segment) :
    buildLines e cur (s :: rest) =
      (if pyStrip s.text = "" then buildLines e cur rest
       else
        match s.speaker with
        | some spk =>
          if e ∧ spk ≠ "" ∧ some spk ≠ cur then
            ("\n[" ++ spk ++ "]") :: pyStrip s.text :: buildLines e (some spk) rest
          else pyStrip s.text :: buildLines e cur rest
        | none => pyStrip s.text :: buildLines e cur rest) := rfl

/-- Step lemma for `buildLines`: empty-after-strip segments are skipped. -/
lemma buildLines_cons_empty {s : Segment} (e : Bool) (cur : Option String)
    (rest : List Segment) (ht : pyStrip s.text = "") :
    buildLines e cur (s :: rest) = buildLines e cur rest := by
  rw [buildLines_cons, if_pos ht]

/-- Step lemma for `buildLines`: a speakerless segment contributes its text line. -/
lemma buildLines_cons_none {s : Segment} (e : Bool) (cur : Option String)
    (rest : List Segment) (ht : ¬ pyStrip s.text = "") (hspk : s.speaker = none) :
    buildLines e cur (s :: rest) = pyStrip s.text :: buildLines e cur rest := by
  rw [buildLines_cons, if_neg ht, hspk]

/-- Step lemma for `buildLines`: a speaker-labelled segment contributes a marker line
when diarization is enabled and the speaker changed, then its text line. -/
lemma buildLines_cons_some {s : Segment} {spk : String} (e : Bool)
    (cur : Option String) (rest : List Segment) (ht : ¬ pyStrip s.text = "")
    (hspk : s.speaker = some spk) :
    buildLines e cur (s :: rest) =
      (if e ∧ spk ≠ "" ∧ some spk ≠ cur then
        ("\n[" ++ spk ++ "]") :: pyStrip s.text :: buildLines e (some spk) rest
       else pyStrip s.text :: buildLines e cur rest) := by
  rw [buildLines_cons, if_neg ht, hspk]

/-- The transcript build loop emits no line for a segment whose stripped
text is empty: filtering such segments out first changes nothing. -/
lemma buildLines_filter (e : Bool) (cur : Option String) (segs : List Segment) :
    buildLines e cur (segs.filter (fun s => pyStrip s.text != "")) =
      buildLines e cur segs := by
  induction segs generalizing cur with
  | nil => rfl
  | cons s rest ih =>
    by_cases ht : pyStrip s.text = ""
    · rw [List.filter_cons, if_neg (by simp [ht]), buildLines_cons_empty e cur rest ht]
      exact ih cur
    · rw [List.filter_cons, if_pos (by simp [ht])]
      cases hspk : s.speaker with
      | none =>
        rw [buildLines_cons_none e cur _ ht hspk,
          buildLines_cons_none e cur rest ht hspk, ih cur]
      | some spk =>
        rw [buildLines_cons_some e cur _ ht hspk,
          buildLines_cons_some e cur rest ht hspk]
        by_cases hcond : e ∧ spk ≠ "" ∧ some spk ≠ cur
        · rw [if_pos hcond, if_pos hcond, ih (some spk)]
        · rw [if_neg hcond, if_neg hcond, ih cur]

/-- The stripped texts of the kept segments appear in the emitted lines in
exactly the segment order (speaker-marker lines may be interleaved, but the
segments themselves are never reordered). -/
lemma buildLines_sublist (e : Bool) (cur : Option String) (segs : List Segment) :
    ((segs.filter (fun s => pyStrip s.text != "")).map
        (fun s => pyStrip s.text)).Sublist (buildLines e cur segs) := by
  induction segs generalizing cur with
  | nil => simp
  | cons s rest ih =>
    by_cases ht : pyStrip s.text = ""
    · rw [List.filter_cons, if_neg (by simp [ht]), buildLines_cons_empty e cur rest ht]
      exact ih cur
    · rw [List.filter_cons, if_pos (by simp [ht]), List.map_cons]
      cases hspk : s.speaker with
      | none =>
        rw [buildLines_cons_none e cur rest ht hspk]
        exact List.Sublist.cons₂ _ (ih cur)
      | some spk =>
        rw [buildLines_cons_some e cur rest ht hspk]
        by_cases hcond : e ∧ spk ≠ "" ∧ some spk ≠ cur
        · rw [if_pos hcond]
          exact List.Sublist.cons _ (List.Sublist.cons₂ _ (ih (some spk)))
        · rw [if_neg hcond]
          exact List.Sublist.cons₂ _ (ih cur)

/-- On a segment list with no speaker labels, the transcript build loop is
insensitive to the diarization flag and to the running speaker state. -/
lemma buildLines_indep (segs : List Segment)
    (h : ∀ s ∈ segs, s.speaker = none) (e e' : Bool) (cur cur' : Option String) :
    buildLines e cur segs = buildLines e' cur' segs := by
  induction segs generalizing cur cur' with
  | nil => rfl
  | cons s rest ih =>
    have hs : s.speaker = none := h s (by simp)
    have hr : ∀ x ∈ rest, x.speaker = none := fun x hx => h x (by simp [hx])
    by_cases ht : pyStrip s.text = ""
    · rw [buildLines_cons_empty e cur rest ht, buildLines_cons_empty e' cur' rest ht]
      exact ih hr cur cur'
    · rw [buildLines_cons_none e cur rest ht hs, buildLines_cons_none e' cur' rest ht hs]
      exact congrArg _ (ih hr cur cur')

/-- If every segment's stripped text is empty, no lines are emitted. -/
lemma buildLines_allEmpty (e : Bool) (cur : Option String) (segs : List Segment)
    (h : ∀ s ∈ segs, pyStrip s.text = "") :
    buildLines e cur segs = [] := by
  induction segs generalizing cur with
  | nil => rfl
  | cons s rest ih =>
    have hs : pyStrip s.text = "" := h s (by simp)
    have hr : ∀ x ∈ rest, pyStrip x.text = "" := fun x hx => h x (by simp [hx])
    rw [buildLines_cons_empty e cur rest hs]
    exact ih cur hr

end Win

/-- The guarded Align stage preserves sortedness when the aligner does. -/
lemma alignStage_sorted (o : Oracle) (l : List Segment) (h : SortedSegs l)
    (ha : ∀ l l', SortedSegs l → o.align l = .ok l' → SortedSegs l') :
    SortedSegs (alignStage o l) := by
  unfold alignStage
  split
  · exact h
  · rename_i s hal
    exact ha l s h hal

/-- The guarded Diarize stage preserves sortedness when the diarizer does. -/
lemma diarizeStage_sorted (o : Oracle) (l : List Segment) (h : SortedSegs l)
    (hd : ∀ l l', SortedSegs l → o.diarize l = .ok l' → SortedSegs l') :
    SortedSegs (diarizeStage o l) := by
  unfold diarizeStage
  split
  · exact h
  · rename_i s hdz
    exact hd l s h hdz

namespace Win

/-- The final segment list of a Windows run is sorted whenever the
backends honour their contracts: the Transcribe stage emits a sorted list
and Align/Diarize preserve sortedness. -/
lemma winFinalSegs_sorted (o : Oracle) (b : Prop) [Decidable b]
    (ht : ∀ tr, o.transcribeRun = .ok tr → SortedSegs tr.segments)
    (ha : ∀ l l', SortedSegs l → o.align l = .ok l' → SortedSegs l')
    (hd : ∀ l l', SortedSegs l → o.diarize l = .ok l' → SortedSegs l') :
    SortedSegs (finalSegs o b) := by
  have haligned : SortedSegs (alignedSegs o) := by
    unfold alignedSegs
    split
    · exact List.Pairwise.nil
    · rename_i tr htr
      exact alignStage_sorted o tr.segments (ht tr htr) ha
  unfold finalSegs
  split
  · exact diarizeStage_sorted o (alignedSegs o) haligned hd
  · exact haligned

end Win

namespace Mac

/-- The segment list the macOS run renders (empty when an earlier stage
aborts the run, in particular when alignment raises). -/
def finalSegs (o : Oracle) (useDiar : Prop) [Decidable useDiar] : List Segment :=
  match o.transcribeRun with
  | .error _ => []
  | .ok tr =>
    match o.align tr.segments with
    | .error _ => []
    | .ok aligned =>
      if useDiar then diarizeStage o aligned else aligned

/-- The final segment list of a macOS run is sorted whenever the backends
honour their contracts. -/
lemma macFinalSegs_sorted (o : Oracle) (b : Prop) [Decidable b]
    (ht : ∀ tr, o.transcribeRun = .ok tr → SortedSegs tr.segments)
    (ha : ∀ l l', SortedSegs l → o.align l = .ok l' → SortedSegs l')
    (hd : ∀ l l', SortedSegs l → o.diarize l = .ok l' → SortedSegs l') :
    SortedSegs (finalSegs o b) := by
  unfold finalSegs
  split
  · exact List.Pairwise.nil
  · rename_i tr htr
    split
    · exact List.Pairwise.nil
    · rename_i aligned hal
      have hsorted : SortedSegs aligned := ha tr.segments aligned (ht tr htr) hal
      split
      · exact diarizeStage_sorted o aligned hsorted hd
      · exact hsorted

end Mac

namespace Win

/-- Lemma: `_get_model` never fails when the backend load succeeds. -/
lemma getModel_ok (c : Cache) (k : MKey) (h : Nat) :
    ∃ m c' ev, getModel c k (.ok h) = (.ok m, c', ev) := by
  unfold getModel
  rcases c with ⟨ck, cm⟩
  cases cm with
  | none => exact ⟨h, _, _, rfl⟩
  | some m =>
    dsimp only
    by_cases hk : ck = some k
    · rw [if_pos hk]
      exact ⟨m, _, _, rfl⟩
    · rw [if_neg hk]
      exact ⟨h, _, _, rfl⟩

/-- Lemma: `_get_model` performs no directory creation and no file write. -/
lemma getModel_no_mkdir_write (c : Cache) (k : MKey) (load : Except String Nat) :
    Event.mkdir ∉ (getModel c k load).2.2 ∧
    ∀ n cnt, Event.writeFile n cnt ∉ (getModel c k load).2.2 := by
  unfold getModel
  rcases c with ⟨ck, cm⟩
  constructor
  · cases cm <;> cases load <;> dsimp only <;>
      first | (split_ifs <;> simp) | simp
  · intro n cnt
    cases cm <;> cases load <;> dsimp only <;>
      first | (split_ifs <;> simp) | simp

end Win

lemma ts_zero : format_timestamp 0 = "00:00" := by
  have h := format_timestamp_natCast 0
  norm_num at h
  rw [h]; decide

lemma ts_one : format_timestamp 1 = "00:01" := by
  have h := format_timestamp_natCast 1
  norm_num at h
  rw [h]; decide

/-- C1: a second consecutive `_get_model` acquisition with a key identical
to the cached one returns the cached handle, leaves the cache untouched and
issues no backend load call (empty event trace); an acquisition with any
differing key first destroys the existing entry — releasing accelerator
memory when the device is cuda — and only then issues the backend load for
the new key. -/
theorem C1_model_cache (c : Cache) (k k' : MKey) (m : Nat)
    (load load' : Except String Nat)
    (hk : c.key = some k) (hm : c.model = some m) :
    Win.getModel c k load = (.ok m, c, []) ∧
    (k' ≠ k →
      (Win.getModel c k' load').2.2 =
        Event.destroyModel ::
          ((if k'.device = "cuda" then [Event.cudaEmpty] else []) ++
            [Event.loadModel k'])) := by
  constructor
  · unfold Win.getModel
    rw [hm]
    simp only [if_pos hk]
  · intro hne
    unfold Win.getModel
    rw [hm]
    have hkk : ¬ c.key = some k' := by
      rw [hk]; intro hcontra; exact hne (Option.some.inj hcontra).symm
    simp only [if_neg hkk]
    cases load' <;> rfl

/-- Witness for C1 at a concrete cache state and keys. -/
theorem C1_model_cache_witness :
    Win.getModel ⟨some ⟨"tiny", "cpu", "int8", some "en"⟩, some 5⟩
        ⟨"tiny", "cpu", "int8", some "en"⟩ (.ok 9) =
      (.ok 5, ⟨some ⟨"tiny", "cpu", "int8", some "en"⟩, some 5⟩, []) ∧
    (Win.getModel ⟨some ⟨"tiny", "cpu", "int8", some "en"⟩, some 5⟩
        ⟨"base", "cpu", "int8", some "en"⟩ (.ok 9)).2.2 =
      [Event.destroyModel, Event.loadModel ⟨"base", "cpu", "int8", some "en"⟩] := by
  have h := C1_model_cache ⟨some ⟨"tiny", "cpu", "int8", some "en"⟩, some 5⟩
    ⟨"tiny", "cpu", "int8", some "en"⟩ ⟨"base", "cpu", "int8", some "en"⟩
    5 (.ok 9) (.ok 9) rfl rfl
  refine ⟨h.1, ?_⟩
  have h2 := h.2 (by decide)
  rw [h2]
  decide

/-- C7: for every nonnegative second count, `format_timestamp` renders the
truncated (not rounded) integer second count, as `MM:SS` below one hour and
`HH:MM:SS` from one hour on with zero-padded two-digit fields
(`specTimestamp`); in particular 125 s renders "02:05" and 3725 s renders
"01:02:05". -/
theorem C7_format_timestamp (s : ℚ) (h : 0 ≤ s) :
    format_timestamp s = specTimestamp ⌊s⌋₊ ∧
    format_timestamp 125 = "02:05" ∧
    format_timestamp 3725 = "01:02:05" := by
  refine ⟨format_timestamp_spec s h, ?_, ?_⟩
  · have h1 := format_timestamp_natCast 125
    norm_num at h1
    rw [h1]; decide
  · have h1 := format_timestamp_natCast 3725
    norm_num at h1
    rw [h1]; decide

/-- Witness for C7 at the fractional input 125.5 s, showing truncation. -/
theorem C7_format_timestamp_witness :
    (0:ℚ) ≤ 251/2 ∧ format_timestamp (251/2) = specTimestamp 125 := by
  have h := (C7_format_timestamp (251/2) (by norm_num)).1
  have hfl : ⌊(251/2 : ℚ)⌋₊ = 125 := by
    rw [Nat.floor_eq_iff (by norm_num)]; norm_num
  rw [hfl] at h
  exact ⟨by norm_num, h⟩

/-- C8 counterexample: the claim says cuda is tested first and preferred
over mps.  On a host with both accelerators the macOS resolver returns
"mps", not "cuda"; and on a host with only mps the Windows resolver
returns "cpu", never "mps". -/
theorem C8_counterexample :
    Mac.get_device ⟨true, true⟩ = "mps" ∧
    ¬ Mac.get_device ⟨true, true⟩ = "cuda" ∧
    Win.get_device ⟨false, true⟩ = "cpu" ∧
    ¬ Win.get_device ⟨false, true⟩ = "mps" := by decide

/-- C8 amended: the macOS resolver tests the unified-memory accelerator
first (mps over cuda over cpu), while the Windows resolver only tests cuda
(cuda over cpu, mps never selected). -/
theorem C8_device_order (h : HostCaps) :
    Mac.get_device h = (if h.mps then "mps" else if h.cuda then "cuda" else "cpu") ∧
    Win.get_device h = (if h.cuda then "cuda" else "cpu") :=
  ⟨rfl, rfl⟩

/-- C9 counterexample: the macOS assembler does not drop a segment whose
text is empty after trimming — it still emits a timestamped display line
for it (and an empty entry in the full-text rendering). -/
theorem C9_counterexample :
    ([(⟨0, 1, "  ", none⟩ : Segment)].map Mac.renderLine) = ["[00:00 - 00:01]: "] ∧
    String.intercalate " "
        ([(⟨0, 1, "  ", none⟩ : Segment), ⟨1, 2, "hi", none⟩].map
          (fun s => pyStrip s.text)) = " hi" := by
  constructor
  · simp only [List.map_cons, List.map_nil, Mac.renderLine, ts_zero, ts_one]
    decide
  · decide

/-- C9 amended: the Windows assembler drops segments whose text is empty
after trimming (filtering them away first changes nothing), but the macOS
assembler emits exactly one display line per segment, empty or not. -/
theorem C9_empty_segments (e : Bool) (cur : Option String) (segs : List Segment) :
    Win.buildLines e cur (segs.filter (fun s => pyStrip s.text != "")) =
      Win.buildLines e cur segs ∧
    (segs.map Mac.renderLine).length = segs.length :=
  ⟨Win.buildLines_filter e cur segs, by simp⟩

/-- Input used by the C4 counterexample: an upload with the unsupported
extension `.txt` on a Windows host with FFmpeg present. -/
def c4input : Win.Input :=
  { aud := some ⟨"note", ".txt"⟩, language := "English", modelSize := "tiny",
    enableDiarization := false, hfToken := "", savedToken := "",
    ffmpeg := true, caps := ⟨false, false⟩, timestamp := "20250101_000000" }

/-- Oracle used by the C4 counterexample: every backend call succeeds. -/
def c4oracle : Oracle :=
  { loadModel := .ok 7, loadAud := .ok (),
    transcribeRun := .ok ⟨[⟨0, 1, " hello ", none⟩], some "en"⟩,
    align := fun l => .ok l, diarize := fun l => .ok l }

/-- C4 counterexample: the Windows `transcribe` performs no extension
validation — on an input with the unsupported extension `.txt` its very
first event is the backend model-load call, the run goes on to write an
output file, and no invalid-input message is returned. -/
theorem C4_counterexample :
    (Win.transcribe ⟨none, none⟩ c4input c4oracle).events =
      [Event.loadModel ⟨"tiny", "cpu", "int8", some "en"⟩, Event.mkdir,
        Event.writeFile "note_20250101_000000.txt" "hello"] ∧
    (Win.transcribe ⟨none, none⟩ c4input c4oracle).output = "hello" := by
  decide

/-- C4 amended: only the macOS variant rejects an input whose lowercased
extension is outside the audio allow-list, returning the invalid-input
message with an empty event trace — before any backend model-load call;
the Windows variant performs no such validation. -/
theorem C4_reject_unsupported (i : Mac.Input) (o : Oracle) (p : APath)
    (hp : i.aud = some p) (hs : pyLower p.suffix ∉ Mac.AUDIO_FORMATS) :
    (Mac.transcribe i o).output = (Mac.unsupportedMsg, "") ∧
    (Mac.transcribe i o).events = [] := by
  unfold Mac.transcribe
  simp only [hp, if_pos hs]
  exact ⟨trivial, trivial⟩

/-- Oracle used by the C2 counterexample: a failing aligner, everything
else succeeding. -/
def c2oracle : Oracle :=
  { loadModel := .ok 7, loadAud := .ok (),
    transcribeRun := .ok ⟨[⟨0, 1, " hello ", none⟩], some "en"⟩,
    align := fun _ => .error "boom", diarize := fun l => .ok l }

/-- Input used by the C2 counterexample: a valid `.mp3` upload on macOS. -/
def c2input : Mac.Input :=
  { aud := some ⟨"talk", ".mp3"⟩, language := "English", modelSize := "tiny",
    enableDiarization := false, hfToken := "", caps := ⟨false, false⟩,
    tsName := "20250101_000000", tsHeader := "2025-01-01 00:00:00",
    downloads := "/u/Downloads" }

/-- C2 counterexample: in the macOS variant an alignment exception aborts
the run — the transcribe operation returns the outer-handler error message
and writes no transcript, instead of continuing with the unrefined
Transcribe-stage segments. -/
theorem C2_counterexample :
    (Mac.transcribe c2input c2oracle).output =
      ("Error during transcription: boom", "") ∧
    (Mac.transcribe c2input c2oracle).events =
      [Event.loadModel ⟨"tiny", "cpu", "float32", some "en"⟩] := by decide

/-- C2 amended: in the Windows variant an alignment exception is caught and
the run continues exactly as if alignment had returned the Transcribe-stage
segments unchanged (so the final transcript uses the unrefined segments and
timestamps); in the macOS variant an alignment exception aborts the run
with the outer handler's error message and no file is written. -/
theorem C2_alignment_failure (c : Cache) (iw : Win.Input)
    (lm : Except String Nat) (la : Except String Unit)
    (trr : Except String TResult)
    (dz : List Segment → Except String (List Segment)) (e : String)
    (im : Mac.Input) (om : Oracle) (p : APath) (tr : TResult) (hm : Nat)
    (hp : im.aud = some p) (hsuf : pyLower p.suffix ∈ Mac.AUDIO_FORMATS)
    (hlm : om.loadModel = .ok hm) (hla : om.loadAud = .ok ())
    (htr : om.transcribeRun = .ok tr)
    (hal : om.align tr.segments = .error e) :
    Win.transcribe c iw ⟨lm, la, trr, fun _ => .error e, dz⟩ =
      Win.transcribe c iw ⟨lm, la, trr, fun l => .ok l, dz⟩ ∧
    (Mac.transcribe im om).output =
      ("Error during transcription: " ++ e, "") ∧
    (∀ n content, Event.writeFile n content ∉ (Mac.transcribe im om).events) := by
  refine ⟨rfl, ?_⟩
  have hrun : Mac.transcribe im om =
      { output := ("Error during transcription: " ++ e, ""),
        events := [Event.loadModel ⟨im.modelSize, Mac.get_device im.caps,
          Mac.get_compute_type (Mac.get_device im.caps),
          Mac.langCode im.language⟩] } := by
    unfold Mac.transcribe
    simp only [hp]
    rw [if_neg (by simp [hsuf])]
    simp only [hlm, hla, htr, hal]
  rw [hrun]
  exact ⟨rfl, by intro n content hmem; simp at hmem⟩

/-- Witness for C2's amended theorem at concrete inputs. -/
theorem C2_alignment_failure_witness :
    (Win.transcribe ⟨none, none⟩
        { aud := some ⟨"talk", ".mp3"⟩, language := "English",
          modelSize := "tiny", enableDiarization := false, hfToken := "",
          savedToken := "", ffmpeg := true, caps := ⟨false, false⟩,
          timestamp := "20250101_000000" }
        ⟨.ok 7, .ok (), .ok ⟨[⟨0, 1, " hello ", none⟩], some "en"⟩,
          fun _ => .error "boom", fun l => .ok l⟩ =
      Win.transcribe ⟨none, none⟩
        { aud := some ⟨"talk", ".mp3"⟩, language := "English",
          modelSize := "tiny", enableDiarization := false, hfToken := "",
          savedToken := "", ffmpeg := true, caps := ⟨false, false⟩,
          timestamp := "20250101_000000" }
        ⟨.ok 7, .ok (), .ok ⟨[⟨0, 1, " hello ", none⟩], some "en"⟩,
          fun l => .ok l, fun l => .ok l⟩) ∧
    (Mac.transcribe c2input c2oracle).output =
      ("Error during transcription: boom", "") := by
  have h := C2_alignment_failure ⟨none, none⟩
    { aud := some ⟨"talk", ".mp3"⟩, language := "English",
      modelSize := "tiny", enableDiarization := false, hfToken := "",
      savedToken := "", ffmpeg := true, caps := ⟨false, false⟩,
      timestamp := "20250101_000000" }
    (.ok 7) (.ok ()) (.ok ⟨[⟨0, 1, " hello ", none⟩], some "en"⟩)
    (fun l => .ok l) "boom" c2input c2oracle ⟨"talk", ".mp3"⟩
    ⟨[⟨0, 1, " hello ", none⟩], some "en"⟩ 7
    rfl (by decide) rfl rfl rfl rfl
  exact ⟨h.1, h.2.1⟩

/-- C3: for every run with diarization enabled whose diarization backend
raises, the run does not abort and the result is identical to the run of
the same inputs with diarization disabled — on Windows (given that the
pre-diarization segments carry no speaker labels, as the Transcribe and
Align backends produce none) and on macOS. -/
theorem C3_diarization_failure (c : Cache) (iw : Win.Input) (ow : Oracle)
    (im : Mac.Input) (om : Oracle) (ed : String)
    (henw : iw.enableDiarization = true) (henm : im.enableDiarization = true)
    (hdw : ∀ l, ow.diarize l = .error ed) (hdm : ∀ l, om.diarize l = .error ed)
    (hspk : ∀ s ∈ Win.alignedSegs ow, s.speaker = none) :
    Win.transcribe c iw ow =
      Win.transcribe c { iw with enableDiarization := false } ow ∧
    Mac.transcribe im om =
      Mac.transcribe { im with enableDiarization := false } om := by
  constructor
  · unfold Win.transcribe
    cases haud : iw.aud with
    | none => rfl
    | some p =>
      cases hff : iw.ffmpeg with
      | false => rfl
      | true =>
        dsimp only
        generalize Win.getModel c _ ow.loadModel = gm
        obtain ⟨mres, c₁, ev₁⟩ := gm
        cases mres with
        | error e => rfl
        | ok m =>
          cases hla : ow.loadAud with
          | error e => rfl
          | ok u =>
            cases htr : ow.transcribeRun with
            | error e => rfl
            | ok tr =>
              have hspk' : ∀ s ∈ alignStage ow tr.segments, s.speaker = none := by
                unfold Win.alignedSegs at hspk
                rw [htr] at hspk
                exact hspk
              have hdz : diarizeStage ow (alignStage ow tr.segments) =
                  alignStage ow tr.segments := by
                unfold diarizeStage
                rw [hdw (alignStage ow tr.segments)]
              unfold Win.assembleAndSave
              simp only [hdz, ite_self]
              rw [Win.buildLines_indep (alignStage ow tr.segments) hspk'
                iw.enableDiarization false none none]
  · unfold Mac.transcribe
    cases haud : im.aud with
    | none => rfl
    | some p =>
      dsimp only
      by_cases hsuf : pyLower p.suffix ∉ Mac.AUDIO_FORMATS
      · rw [if_pos hsuf, if_pos hsuf]
      · rw [if_neg hsuf, if_neg hsuf]
        cases hlm : om.loadModel with
        | error e => rfl
        | ok m =>
          dsimp only
          cases hla : om.loadAud with
          | error e => rfl
          | ok u =>
            dsimp only
            cases htr : om.transcribeRun with
            | error e => rfl
            | ok tr =>
              dsimp only
              cases hal : om.align tr.segments with
              | error e => rfl
              | ok aligned =>
                have hdz : diarizeStage om aligned = aligned := by
                  unfold diarizeStage
                  rw [hdm aligned]
                unfold Mac.assembleAndSave
                simp only [hdz, ite_self]

/-- Witness for C3 at concrete inputs with an always-raising diarizer. -/
theorem C3_diarization_failure_witness :
    Win.transcribe ⟨none, none⟩
        { aud := some ⟨"talk", ".mp3"⟩, language := "English",
          modelSize := "tiny", enableDiarization := true, hfToken := "tok",
          savedToken := "", ffmpeg := true, caps := ⟨false, false⟩,
          timestamp := "20250101_000000" }
        ⟨.ok 7, .ok (), .ok ⟨[⟨0, 1, " hello ", none⟩], some "en"⟩,
          fun l => .ok l, fun _ => .error "denied"⟩ =
      Win.transcribe ⟨none, none⟩
        { aud := some ⟨"talk", ".mp3"⟩, language := "English",
          modelSize := "tiny", enableDiarization := false, hfToken := "tok",
          savedToken := "", ffmpeg := true, caps := ⟨false, false⟩,
          timestamp := "20250101_000000" }
        ⟨.ok 7, .ok (), .ok ⟨[⟨0, 1, " hello ", none⟩], some "en"⟩,
          fun l => .ok l, fun _ => .error "denied"⟩ := by
  have h := C3_diarization_failure ⟨none, none⟩
    { aud := some ⟨"talk", ".mp3"⟩, language := "English",
      modelSize := "tiny", enableDiarization := true, hfToken := "tok",
      savedToken := "", ffmpeg := true, caps := ⟨false, false⟩,
      timestamp := "20250101_000000" }
    ⟨.ok 7, .ok (), .ok ⟨[⟨0, 1, " hello ", none⟩], some "en"⟩,
      fun l => .ok l, fun _ => .error "denied"⟩
    { aud := some ⟨"talk", ".mp3"⟩, language := "English",
      modelSize := "tiny", enableDiarization := true, hfToken := "tok",
      caps := ⟨false, false⟩, tsName := "20250101_000000",
      tsHeader := "2025-01-01 00:00:00", downloads := "/u/Downloads" }
    ⟨.ok 7, .ok (), .ok ⟨[⟨0, 1, " hello ", none⟩], some "en"⟩,
      fun l => .ok l, fun _ => .error "denied"⟩
    "denied" rfl rfl (fun _ => rfl) (fun _ => rfl) (by decide)
  exact h.1

/-- Witness for C4's amended theorem at a concrete `.txt` input. -/
theorem C4_reject_unsupported_witness :
    (Mac.transcribe
        { aud := some ⟨"note", ".txt"⟩, language := "English",
          modelSize := "tiny", enableDiarization := false, hfToken := "",
          caps := ⟨false, false⟩, tsName := "20250101_000000",
          tsHeader := "2025-01-01 00:00:00", downloads := "/u/Downloads" }
        c4oracle).output = (Mac.unsupportedMsg, "") := by
  have h := C4_reject_unsupported
    { aud := some ⟨"note", ".txt"⟩, language := "English",
      modelSize := "tiny", enableDiarization := false, hfToken := "",
      caps := ⟨false, false⟩, tsName := "20250101_000000",
      tsHeader := "2025-01-01 00:00:00", downloads := "/u/Downloads" }
    c4oracle ⟨"note", ".txt"⟩ rfl (by decide)
  exact h.1

/-- Input used by the C10 witness: diarization disabled, FFmpeg present. -/
def c10input : Win.Input :=
  { aud := some ⟨"talk", ".mp3"⟩, language := "English", modelSize := "tiny",
    enableDiarization := false, hfToken := "", savedToken := "",
    ffmpeg := true, caps := ⟨false, false⟩, timestamp := "20250101_000000" }

/-- Oracle used by the C10 witness: one whitespace-only segment. -/
def c10oracle : Oracle :=
  { loadModel := .ok 7, loadAud := .ok (),
    transcribeRun := .ok ⟨[⟨0, 1, "  ", none⟩], some "en"⟩,
    align := fun l => .ok l, diarize := fun l => .ok l }

/-- C10: in the Windows variant, a run that reaches assembly with only
empty-after-trim segments returns the message "No speech detected in the
audio file." and neither creates the output directory nor writes any
output file. -/
theorem C10_no_speech (c : Cache) (i : Win.Input) (o : Oracle) (p : APath)
    (hh : Nat) (tr : TResult)
    (hp : i.aud = some p) (hff : i.ffmpeg = true)
    (hlm : o.loadModel = .ok hh) (hla : o.loadAud = .ok ())
    (htr : o.transcribeRun = .ok tr)
    (hempty : ∀ s ∈ Win.finalSegs o (i.enableDiarization ∧ Win.token i ≠ ""),
      pyStrip s.text = "") :
    (Win.transcribe c i o).output = "No speech detected in the audio file." ∧
    Event.mkdir ∉ (Win.transcribe c i o).events ∧
    ∀ n cnt, Event.writeFile n cnt ∉ (Win.transcribe c i o).events := by
  unfold Win.transcribe
  simp only [hp, hff]
  obtain ⟨m, c', ev, hgm⟩ := Win.getModel_ok c
    ⟨i.modelSize, Win.get_device i.caps,
      Win.get_compute_type (Win.get_device i.caps),
      if i.language = "Auto-detect" then none else Win.langCode i.language⟩ hh
  rw [hlm, hgm]
  dsimp only
  rw [hla, htr]
  dsimp only
  rw [if_neg (by simp)]
  unfold Win.assembleAndSave
  dsimp only
  unfold Win.finalSegs Win.alignedSegs at hempty
  rw [htr] at hempty
  dsimp only at hempty
  rw [Win.buildLines_allEmpty _ _ _ ?hall]
  case hall =>
    intro s hs
    exact hempty s hs
  rw [if_pos (show pyStrip (String.intercalate "\n" []) = "" from rfl)]
  have hev := Win.getModel_no_mkdir_write c
    ⟨i.modelSize, Win.get_device i.caps,
      Win.get_compute_type (Win.get_device i.caps),
      if i.language = "Auto-detect" then none else Win.langCode i.language⟩ (.ok hh)
  rw [hgm] at hev
  exact ⟨rfl, hev.1, hev.2⟩

/-- Witness for C10 at a concrete whitespace-only-transcript run. -/
theorem C10_no_speech_witness :
    (Win.transcribe ⟨none, none⟩ c10input c10oracle).output =
      "No speech detected in the audio file." ∧
    Event.mkdir ∉ (Win.transcribe ⟨none, none⟩ c10input c10oracle).events := by
  have h := C10_no_speech ⟨none, none⟩ c10input c10oracle ⟨"talk", ".mp3"⟩ 7
    ⟨[⟨0, 1, "  ", none⟩], some "en"⟩ rfl rfl rfl rfl rfl (by decide)
  exact ⟨h.1, h.2.1⟩

namespace Mac

/-- The diarization-attempt condition of the macOS run. -/
abbrev useDiar (i : Input) : Prop := i.enableDiarization ∧ i.hfToken ≠ ""

/-- The model key of the macOS run. -/
def keyOf (i : Input) : MKey :=
  ⟨i.modelSize, get_device i.caps,
    get_compute_type (get_device i.caps), langCode i.language⟩

/-- The detected language of the macOS run. -/
def detectedOf (i : Input) (tr : TResult) : String :=
  tr.language.getD ((langCode i.language).getD "en")

/-- The display transcript of the macOS run: the final segments rendered
one line per segment, in order. -/
def transcriptOf (i : Input) (o : Oracle) : String :=
  String.intercalate "\n" ((finalSegs o (useDiar i)).map renderLine)

/-- The full-text rendering of the macOS run. -/
def fullTextOf (i : Input) (o : Oracle) : String :=
  String.intercalate " " ((finalSegs o (useDiar i)).map (fun s => pyStrip s.text))

/-- Characterization of a fully successful macOS run: one file written, no
directory creation, header built by `fileContent`. -/
lemma mac_run_success (i : Input) (o : Oracle) (p : APath) (tr : TResult)
    (aligned : List Segment) (hh : Nat)
    (hp : i.aud = some p) (hsuf : pyLower p.suffix ∈ AUDIO_FORMATS)
    (hlm : o.loadModel = .ok hh) (hla : o.loadAud = .ok ())
    (htr : o.transcribeRun = .ok tr) (hal : o.align tr.segments = .ok aligned) :
    transcribe i o =
      { output := (transcriptOf i o,
          "Saved to: " ++ i.downloads ++ "/" ++
            (p.stem ++ "_transcript_" ++ i.tsName ++ ".txt")),
        events := [Event.loadModel (keyOf i),
          Event.writeFile (p.stem ++ "_transcript_" ++ i.tsName ++ ".txt")
            (fileContent (p.stem ++ p.suffix) i.tsHeader i.modelSize
              (detectedOf i tr) (transcriptOf i o) (fullTextOf i o))] } := by
  have hfs : finalSegs o (useDiar i) =
      if useDiar i then diarizeStage o aligned else aligned := by
    unfold finalSegs
    rw [htr]
    dsimp only
    rw [hal]
  unfold transcribe
  simp only [hp]
  rw [if_neg (by simp [hsuf])]
  rw [hlm]
  dsimp only
  rw [hla]
  dsimp only
  rw [htr]
  dsimp only
  rw [hal]
  dsimp only
  unfold assembleAndSave
  dsimp only
  rw [← hfs]
  rfl

end Mac

namespace Win

/-- The diarization-attempt condition of the Windows run. -/
abbrev useDiar (i : Input) : Prop := i.enableDiarization ∧ token i ≠ ""

/-- The model key of the Windows run. -/
def keyOf (i : Input) : MKey :=
  ⟨i.modelSize, get_device i.caps, get_compute_type (get_device i.caps),
    if i.language = "Auto-detect" then none else langCode i.language⟩

/-- The transcript of the Windows run. -/
def transcriptOf (i : Input) (o : Oracle) : String :=
  pyStrip (String.intercalate "\n"
    (buildLines i.enableDiarization none (finalSegs o (useDiar i))))

/-- Characterization of a successful Windows run from an empty cache with a
non-empty transcript: directory created, one file written whose content is
exactly the transcript. -/
lemma win_run_success (i : Input) (o : Oracle) (p : APath) (tr : TResult)
    (hh : Nat)
    (hp : i.aud = some p) (hff : i.ffmpeg = true)
    (hlm : o.loadModel = .ok hh) (hla : o.loadAud = .ok ())
    (htr : o.transcribeRun = .ok tr) (hT : transcriptOf i o ≠ "") :
    transcribe ⟨none, none⟩ i o =
      { output := transcriptOf i o,
        cache := ⟨some (keyOf i), some hh⟩,
        events := [Event.loadModel (keyOf i), Event.mkdir,
          Event.writeFile (p.stem ++ "_" ++ i.timestamp ++ ".txt")
            (transcriptOf i o)]
          ++ (if get_device i.caps = "cuda" then [Event.cudaEmpty] else []) } := by
  have hfs : finalSegs o (useDiar i) =
      if useDiar i then diarizeStage o (alignStage o tr.segments)
      else alignStage o tr.segments := by
    unfold finalSegs alignedSegs
    rw [htr]
  unfold transcribe
  simp only [hp, hff]
  rw [hlm]
  have hgm : getModel ⟨none, none⟩
      ⟨i.modelSize, get_device i.caps, get_compute_type (get_device i.caps),
        if i.language = "Auto-detect" then none else langCode i.language⟩
      (.ok hh) =
      (.ok hh,
        ⟨some ⟨i.modelSize, get_device i.caps,
          get_compute_type (get_device i.caps),
          if i.language = "Auto-detect" then none else langCode i.language⟩,
          some hh⟩,
        [Event.loadModel ⟨i.modelSize, get_device i.caps,
          get_compute_type (get_device i.caps),
          if i.language = "Auto-detect" then none else langCode i.language⟩]) := rfl
  rw [hgm]
  dsimp only
  rw [hla, htr]
  dsimp only
  rw [if_neg (by simp)]
  unfold assembleAndSave
  dsimp only
  rw [← hfs]
  unfold transcriptOf at hT ⊢
  rw [if_neg hT]
  rfl

end Win

/-- Oracle used by the C5 witness: two sorted segments, identity aligner
and diarizer. -/
def c5oracle : Oracle :=
  { loadModel := .ok 7, loadAud := .ok (),
    transcribeRun := .ok ⟨[⟨0, 1, "one", none⟩, ⟨1, 2, "two", none⟩], some "en"⟩,
    align := fun l => .ok l, diarize := fun l => .ok l }

/-- Input used by the C5 witness. -/
def c5input : Mac.Input :=
  { aud := some ⟨"talk", ".mp3"⟩, language := "English", modelSize := "tiny",
    enableDiarization := false, hfToken := "", caps := ⟨false, false⟩,
    tsName := "20250101_000000", tsHeader := "2025-01-01 00:00:00",
    downloads := "/u/Downloads" }

/-- C5: whenever the backends honour the contract that the Transcribe
stage emits segments sorted by start time and the Align and Diarize stages
only annotate (preserve sortedness), the final segment lists of both
variants are sorted; moreover assembly never reorders: the Windows build
loop emits the kept segment texts as an in-order sublist of its line
output, and the macOS run's transcript is exactly the final segment list
rendered one line per segment in list order. -/
theorem C5_segment_order (o : Oracle) (d : Prop) [Decidable d]
    (segs : List Segment) (e : Bool) (cur : Option String)
    (i : Mac.Input) (om : Oracle) (p : APath) (tr : TResult)
    (aligned : List Segment) (hh : Nat)
    (ht : ∀ tr, o.transcribeRun = .ok tr → SortedSegs tr.segments)
    (ha : ∀ l l', SortedSegs l → o.align l = .ok l' → SortedSegs l')
    (hd : ∀ l l', SortedSegs l → o.diarize l = .ok l' → SortedSegs l')
    (hp : i.aud = some p) (hsuf : pyLower p.suffix ∈ Mac.AUDIO_FORMATS)
    (hlm : om.loadModel = .ok hh) (hla : om.loadAud = .ok ())
    (htr : om.transcribeRun = .ok tr) (hal : om.align tr.segments = .ok aligned) :
    SortedSegs (Win.finalSegs o d) ∧
    SortedSegs (Mac.finalSegs o d) ∧
    ((segs.filter (fun s => pyStrip s.text != "")).map
        (fun s => pyStrip s.text)).Sublist (Win.buildLines e cur segs) ∧
    (Mac.transcribe i om).output.1 =
      String.intercalate "\n"
        ((Mac.finalSegs om (Mac.useDiar i)).map Mac.renderLine) := by
  refine ⟨Win.winFinalSegs_sorted o d ht ha hd, Mac.macFinalSegs_sorted o d ht ha hd,
    Win.buildLines_sublist e cur segs, ?_⟩
  rw [Mac.mac_run_success i om p tr aligned hh hp hsuf hlm hla htr hal]
  rfl

/-- Witness for C5 at a concrete sorted run. -/
theorem C5_segment_order_witness :
    SortedSegs (Win.finalSegs c5oracle True) ∧
    (Mac.transcribe c5input c5oracle).output.1 =
      String.intercalate "\n"
        ((Mac.finalSegs c5oracle (Mac.useDiar c5input)).map Mac.renderLine) := by
  have h := C5_segment_order c5oracle True [] false none c5input c5oracle
    ⟨"talk", ".mp3"⟩ ⟨[⟨0, 1, "one", none⟩, ⟨1, 2, "two", none⟩], some "en"⟩
    [⟨0, 1, "one", none⟩, ⟨1, 2, "two", none⟩] 7
    (by intro tr htr
        injection htr with h
        subst h
        refine List.Pairwise.cons (fun a ha => ?_) (List.Pairwise.cons (fun a ha => ?_) List.Pairwise.nil)
        · simp only [List.mem_singleton] at ha
          subst ha
          norm_num
        · simp at ha)
    (by intro l l' hs hok
        injection hok with h
        subst h
        exact hs)
    (by intro l l' hs hok
        injection hok with h
        subst h
        exact hs)
    rfl (by decide) rfl rfl rfl rfl
  exact ⟨h.1, h.2.2.2⟩

/-- Input used by the C6 counterexample and witness (Windows side). -/
def c6winput : Win.Input :=
  { aud := some ⟨"talk", ".mp3"⟩, language := "English", modelSize := "tiny",
    enableDiarization := false, hfToken := "", savedToken := "",
    ffmpeg := true, caps := ⟨false, false⟩, timestamp := "20250101_000000" }

/-- Input used by the C6 counterexample and witness (macOS side). -/
def c6macinput : Mac.Input :=
  { aud := some ⟨"talk", ".mp3"⟩, language := "English", modelSize := "tiny",
    enableDiarization := false, hfToken := "", caps := ⟨false, false⟩,
    tsName := "20250101_000000", tsHeader := "2025-01-01 00:00:00",
    downloads := "/u/Downloads" }

/-- Oracle used by the C6 counterexample and witness: one segment
"hello", identity aligner and diarizer. -/
def c6oracle : Oracle :=
  { loadModel := .ok 7, loadAud := .ok (),
    transcribeRun := .ok ⟨[⟨0, 1, " hello ", none⟩], some "en"⟩,
    align := fun l => .ok l, diarize := fun l => .ok l }

/-- C6 counterexample: in a successful Windows run the single written file
is named `<stem>_<timestamp>.txt` — with no suffix component — and its
content is exactly the transcript, with no metadata header and no
separator; and a successful macOS run never creates the output directory. -/
theorem C6_counterexample :
    (Win.transcribe ⟨none, none⟩ c6winput c6oracle).events =
      [Event.loadModel ⟨"tiny", "cpu", "int8", some "en"⟩, Event.mkdir,
        Event.writeFile "talk_20250101_000000.txt" "hello"] ∧
    Event.mkdir ∉ (Mac.transcribe c6macinput c6oracle).events := by
  constructor
  · decide
  · decide

/-- C6 amended: the macOS variant writes exactly one UTF-8 file, at
`<downloads>/<stem>_transcript_<timestamp>.txt`, whose content is the
metadata header (source filename, run timestamp, model size, detected
language), a separator, the rendered transcript, a second separator and a
duplicated full-text section — but it never creates the output directory;
the Windows variant creates the directory if absent and writes exactly one
UTF-8 file, at `<downloads>/<stem>_<timestamp>.txt` (no suffix component),
whose content is the bare rendered transcript with no header. -/
theorem C6_persistence (i : Win.Input) (o : Oracle) (p : APath) (tr : TResult)
    (hh : Nat) (im : Mac.Input) (om : Oracle) (pm : APath) (trm : TResult)
    (alignedm : List Segment) (hhm : Nat)
    (hp : i.aud = some p) (hff : i.ffmpeg = true)
    (hlm : o.loadModel = .ok hh) (hla : o.loadAud = .ok ())
    (htr : o.transcribeRun = .ok tr) (hT : Win.transcriptOf i o ≠ "")
    (hpm : im.aud = some pm) (hsufm : pyLower pm.suffix ∈ Mac.AUDIO_FORMATS)
    (hlmm : om.loadModel = .ok hhm) (hlam : om.loadAud = .ok ())
    (htrm : om.transcribeRun = .ok trm)
    (halm : om.align trm.segments = .ok alignedm) :
    (Win.transcribe ⟨none, none⟩ i o).events =
      [Event.loadModel (Win.keyOf i), Event.mkdir,
        Event.writeFile (p.stem ++ "_" ++ i.timestamp ++ ".txt")
          (Win.transcriptOf i o)]
        ++ (if Win.get_device i.caps = "cuda" then [Event.cudaEmpty] else []) ∧
    (Mac.transcribe im om).events =
      [Event.loadModel (Mac.keyOf im),
        Event.writeFile (pm.stem ++ "_transcript_" ++ im.tsName ++ ".txt")
          (Mac.fileContent (pm.stem ++ pm.suffix) im.tsHeader im.modelSize
            (Mac.detectedOf im trm) (Mac.transcriptOf im om)
            (Mac.fullTextOf im om))] ∧
    Event.mkdir ∉ (Mac.transcribe im om).events := by
  rw [Win.win_run_success i o p tr hh hp hff hlm hla htr hT,
    Mac.mac_run_success im om pm trm alignedm hhm hpm hsufm hlmm hlam htrm halm]
  exact ⟨rfl, rfl, by simp⟩

/-- Witness for C6's amended theorem at concrete successful runs. -/
theorem C6_persistence_witness :
    (Win.transcribe ⟨none, none⟩ c6winput c6oracle).events =
      [Event.loadModel (Win.keyOf c6winput), Event.mkdir,
        Event.writeFile ("talk" ++ "_" ++ c6winput.timestamp ++ ".txt")
          (Win.transcriptOf c6winput c6oracle)]
        ++ (if Win.get_device c6winput.caps = "cuda" then [Event.cudaEmpty]
            else []) ∧
    Event.mkdir ∉ (Mac.transcribe c6macinput c6oracle).events := by
  have h := C6_persistence c6winput c6oracle ⟨"talk", ".mp3"⟩
    ⟨[⟨0, 1, " hello ", none⟩], some "en"⟩ 7
    c6macinput c6oracle ⟨"talk", ".mp3"⟩
    ⟨[⟨0, 1, " hello ", none⟩], some "en"⟩ [⟨0, 1, " hello ", none⟩] 7
    rfl rfl rfl rfl rfl (by decide)
    rfl (by decide) rfl rfl rfl rfl
  exact ⟨h.1, h.2.2⟩
